import Mathlib

/-!
Verification development for the fidcsv repository (src/fidcsv/main.py).

The embedding models the program's data as pandas produces it from
`pd.read_csv`: a DataFrame carries a dtype per column (a column whose
non-missing cells all parse as numbers is `float64`, otherwise `object`
holding strings and NaN), and a list of rows.  The aggregation engine
`compute_ein_aggregates`, the helper `extract_field_value`, the row
construction of `process_batch` (including the `pd.DataFrame(rows,
columns=fields)` column restriction) and the batching loop of `main`
are translated function by function.  Library behaviour that the code
relies on is modelled where it is exercised:

* `Series.str.replace(r"[\$,]", "", regex=True)` works on object
  columns (non-strings become NaN) and raises `AttributeError` on a
  float64 column;
* `Series.astype(float, errors="ignore")` is atomic: it converts the
  whole column, and on any failure returns the column unchanged;
* `Series.sum()` skips NaN, yields 0 on no usable values, and on an
  object column of strings concatenates them;
* `Series.max()` skips NaN and yields NaN when nothing remains;
* `pd.to_datetime(col, errors="coerce")` turns unparseable entries
  into NaT, which `.max()` then skips.

Python `float()` is modelled on decimal/exponent literals (the forms
that survive `read_csv` in a string column); `to_datetime` string
parsing is modelled on ISO `YYYY-M-D` dates via the standard
days-from-civil calendar computation, mapped to nanoseconds since the
epoch as pandas timestamps are.
-/

/-- A pandas cell as produced by `read_csv`: a number, a string, or NaN. -/
inductive Cell where
  | num (q : ℚ) : Cell
  | str (s : String) : Cell
  | na : Cell
deriving DecidableEq, Repr

/-- The dtype of a column: `float64` (all cells numeric or NaN) or
`object` (cells are strings or NaN when loaded by `read_csv`). -/
inductive Dtype where
  | float64 : Dtype
  | obj : Dtype
deriving DecidableEq, Repr

/-- A Python value as it appears in the program's result dictionaries. -/
inductive Value where
  | none_ : Value
  | nan : Value
  | nat_ : Value
  | num (q : ℚ) : Value
  | str (s : String) : Value
  | date (ns : ℚ) : Value
deriving DecidableEq, Repr

/-- The exceptions the modelled pandas operations can raise. -/
inductive PyErr where
  | attributeError : PyErr
  | typeError : PyErr
  | keyError : PyErr
deriving DecidableEq, Repr

/-- A row: an ordered association of column name to cell. -/
abbrev Row := List (String × Cell)

/-- A DataFrame: per-column dtypes plus the rows. -/
structure DataFrame where
  dtypes : List (String × Dtype)
  rows : List Row

/-- `field_config.get(...)`-style record: every key may be absent, as in
the Python dict read from the YAML configuration. -/
structure FieldConfig where
  incl : Option Bool := none
  csv_field : Option String := none
  aggregation : Option String := none
  data_clean : Option String := none
deriving DecidableEq, Repr

/-- The cell of row `r` in column `c` (NaN when the row lacks the column). -/
def rowCell (r : Row) (c : String) : Cell :=
  (r.lookup c).getD Cell.na

/-- The cells of column `c` across `rows`, in row order. -/
def subColumn (rows : List Row) (c : String) : List Cell :=
  rows.map (fun r => rowCell r c)

/-- Pandas elementwise `==` between a cell and a scalar: NaN compares
unequal to everything, values of different kinds compare unequal. -/
def eqCell : Cell → Cell → Bool
  | Cell.num a, Cell.num b => a = b
  | Cell.str a, Cell.str b => a = b
  | _, _ => false

/-- Boolean-mask row selection, as in `df[mask]`. -/
def maskFilter : List α → List Bool → List α
  | a :: as_, true :: bs => a :: maskFilter as_ bs
  | _ :: as_, false :: bs => maskFilter as_ bs
  | _, _ => []

/-- `df[df[c] == k]`: build the elementwise mask of the key column and
boolean-index the rows with it (main.py line 26). -/
def selectKey (df : DataFrame) (c : String) (k : Cell) : List Row :=
  maskFilter df.rows ((subColumn df.rows c).map (fun x => eqCell x k))

/-! ### Python `float()` on the literals that survive `read_csv` -/

/-- Consume leading decimal digits, returning their value, how many
there were, and the rest of the characters. -/
def digitsAux : List Char → ℕ → ℕ → ℕ × ℕ × List Char
  | c :: cs, acc, n =>
    if c.isDigit then digitsAux cs (acc * 10 + (c.toNat - 48)) (n + 1)
    else (acc, n, c :: cs)
  | [], acc, n => (acc, n, [])

/-- An unsigned exponent: digits only, consuming the whole rest. -/
def parseExpNat (cs : List Char) : Option ℤ :=
  match digitsAux cs 0 0 with
  | (v, n, rest) => if 0 < n ∧ rest = [] then some (v : ℤ) else none

/-- A signed exponent body after `e`/`E`. -/
def parseExpBody (cs : List Char) : Option ℤ :=
  match cs with
  | '+' :: r => parseExpNat r
  | '-' :: r => (parseExpNat r).map (fun z => -z)
  | r => parseExpNat r

/-- The optional exponent part: empty, or `e`/`E` then a signed integer. -/
def parseExp : List Char → Option ℤ
  | [] => some 0
  | 'e' :: rest => parseExpBody rest
  | 'E' :: rest => parseExpBody rest
  | _ => none

/-- Scale a rational by a power of ten. -/
def qTimesPow10 (q : ℚ) (e : ℤ) : ℚ := q * (10 : ℚ) ^ e

/-- The unsigned mantissa-and-exponent part of a Python float literal:
digits, an optional point with further digits (at least one digit in
total), and an optional exponent. -/
def pyFloatMantissa (cs : List Char) : Option ℚ :=
  match digitsAux cs 0 0 with
  | (ip, ic, rest) =>
    match rest with
    | '.' :: rest2 =>
      match digitsAux rest2 0 0 with
      | (fp, fc, rest3) =>
        if 0 < ic + fc then
          (parseExp rest3).map (fun e =>
            qTimesPow10 ((ip : ℚ) + (fp : ℚ) / (10 : ℚ) ^ fc) e)
        else none
    | rest1 =>
      if 0 < ic then (parseExp rest1).map (fun e => qTimesPow10 (ip : ℚ) e)
      else none

/-- An ASCII whitespace character, as Python `float` strips. -/
def isPySpace (c : Char) : Bool :=
  c = ' ' ∨ c = '\t' ∨ c = '\n' ∨ c = '\r' ∨ c = '\x0b' ∨ c = '\x0c'

/-- Strip leading and trailing whitespace from a character list. -/
def pyTrim (cs : List Char) : List Char :=
  ((cs.dropWhile isPySpace).reverse.dropWhile isPySpace).reverse

/-- Python `float(s)` on decimal/exponent literals: optional surrounding
whitespace, optional sign, then the mantissa.  (The `inf`/`nan`/underscore
spellings are not modelled; `read_csv` already turns `nan`-like cells into
missing values, so they do not reach this conversion as strings.) -/
def pyFloat? (s : String) : Option ℚ :=
  match pyTrim s.data with
  | '+' :: cs => pyFloatMantissa cs
  | '-' :: cs => (pyFloatMantissa cs).map Neg.neg
  | cs => pyFloatMantissa cs

/-! ### Calendar timestamps for `pd.to_datetime` -/

/-- Gregorian leap year. -/
def isLeap (y : ℕ) : Bool := y % 4 = 0 ∧ (y % 100 ≠ 0 ∨ y % 400 = 0)

/-- Days in a month of a given year. -/
def daysInMonth (y m : ℕ) : ℕ :=
  if m = 2 then (if isLeap y then 29 else 28)
  else if m = 4 ∨ m = 6 ∨ m = 9 ∨ m = 11 then 30
  else 31

/-- Days from 1970-01-01 to the given civil date (standard
days-from-civil computation, for years ≥ 1). -/
def daysFromCivil (y m d : ℕ) : ℤ :=
  let yr := if m ≤ 2 then y - 1 else y
  let era := yr / 400
  let yoe := yr % 400
  let mp := (m + 9) % 12
  let doy := (153 * mp + 2) / 5 + d - 1
  let doe := yoe * 365 + yoe / 4 - yoe / 100 + doy
  ((era * 146097 + doe : ℕ) : ℤ) - 719468

/-- A civil date as nanoseconds since the epoch, the unit of pandas
timestamps. -/
def dateNs (y m d : ℕ) : ℚ :=
  ((daysFromCivil y m d : ℤ) : ℚ) * 86400000000000

/-- Split a character list on `-` separators. -/
def splitDash : List Char → List Char → List (List Char)
  | [], acc => [acc.reverse]
  | c :: rest, acc =>
    if c = '-' then acc.reverse :: splitDash rest []
    else splitDash rest (c :: acc)

/-- All-digit character group as a number, or `none`. -/
def digitsVal? (cs : List Char) : Option ℕ :=
  match digitsAux cs 0 0 with
  | (v, n, rest) => if 0 < n ∧ rest = [] then some v else none

/-- Parse an ISO `YYYY-M-D` date string, validating the calendar, as
`pd.to_datetime` does on such strings. -/
def parseDate? (s : String) : Option (ℕ × ℕ × ℕ) :=
  match splitDash s.data [] with
  | [ys, ms, ds] =>
    match digitsVal? ys, digitsVal? ms, digitsVal? ds with
    | some y, some m, some d =>
      if ys.length = 4 ∧ 1 ≤ ms.length ∧ ms.length ≤ 2 ∧ 1 ≤ ds.length ∧
          ds.length ≤ 2 ∧ 1 ≤ m ∧ m ≤ 12 ∧ 1 ≤ d ∧ d ≤ daysInMonth y m
      then some (y, m, d) else none
    | _, _, _ => none
  | _ => none

/-- `pd.to_datetime(·, errors="coerce")` on one cell: a string parses as
a date or becomes NaT; a float is taken as nanoseconds since the epoch
(the default unit for numeric input); NaN becomes NaT. -/
def toDatetimeCell : Cell → Option ℚ
  | Cell.str s => (parseDate? s).map (fun t => dateNs t.1 t.2.1 t.2.2)
  | Cell.num q => some q
  | Cell.na => none

/-! ### Series operations -/

/-- Is the cell NaN? -/
def isNaCell : Cell → Bool
  | Cell.na => true
  | _ => false

/-- Is the cell a string? -/
def cellIsStr : Cell → Bool
  | Cell.str _ => true
  | _ => false

/-- Is the cell a number? -/
def cellIsNum : Cell → Bool
  | Cell.num _ => true
  | _ => false

/-- The numeric payload of a cell, if any. -/
def cellNum? : Cell → Option ℚ
  | Cell.num q => some q
  | _ => none

/-- The string payload of a cell, if any. -/
def cellStr? : Cell → Option String
  | Cell.str s => some s
  | _ => none

/-- A cell as the Python value `iloc` would hand back. -/
def cellValue : Cell → Value
  | Cell.num q => Value.num q
  | Cell.str s => Value.str s
  | Cell.na => Value.nan

/-- Strip every `$` and `,` character, the effect of
`str.replace(r"[\$,]", "", regex=True)` on one string. -/
def stripCurrency (s : String) : String :=
  String.mk (s.data.filter (fun c => !(c = '$' || c = ',')))

/-- `column.str.replace(r"[\$,]", "", regex=True)`: raises
`AttributeError` on a float64 column; on an object column strips each
string and turns non-strings into NaN. -/
def strAccessorReplace : Dtype → List Cell → Except PyErr (List Cell)
  | Dtype.float64, _ => Except.error PyErr.attributeError
  | Dtype.obj, cells =>
    Except.ok (cells.map (fun c =>
      match c with
      | Cell.str s => Cell.str (stripCurrency s)
      | _ => Cell.na))

/-- One cell under `astype(float)`: `none` means the conversion fails,
`some none` is NaN, `some (some q)` a converted number. -/
def cellToFloat? : Cell → Option (Option ℚ)
  | Cell.na => some none
  | Cell.num q => some (some q)
  | Cell.str s => (pyFloat? s).map some

/-- Convert every cell of an object column to float, or fail. -/
def astypeCells : List Cell → Option (List Cell)
  | [] => some []
  | c :: cs =>
    match cellToFloat? c with
    | none => none
    | some q? =>
      (astypeCells cs).map (fun rest =>
        (match q? with
         | some q => Cell.num q
         | none => Cell.na) :: rest)

/-- `column.astype(float, errors="ignore")`: a float64 column is
unchanged; an object column converts atomically — on any failure the
original column is returned as-is. -/
def astypeFloatIgnore : Dtype → List Cell → Dtype × List Cell
  | Dtype.float64, cells => (Dtype.float64, cells)
  | Dtype.obj, cells =>
    match astypeCells cells with
    | some cs => (Dtype.float64, cs)
    | none => (Dtype.obj, cells)

/-- Sum the numeric cells of a column, skipping the rest. -/
def objNumSum (cells : List Cell) : ℚ :=
  cells.foldl (fun a c =>
    match c with
    | Cell.num q => a + q
    | _ => a) 0

/-- Concatenate the string cells of a column, skipping the rest. -/
def objConcat (cells : List Cell) : String :=
  cells.foldl (fun a c =>
    match c with
    | Cell.str s => a ++ s
    | _ => a) ""

/-- `column.sum()`: numeric sum with NaN skipped on float64 (0 when
nothing remains); on an object column, 0 when no non-NaN values remain,
string concatenation when they are strings, numeric sum when numbers,
`TypeError` when mixed. -/
def seriesSum : Dtype → List Cell → Except PyErr Value
  | Dtype.float64, cells => Except.ok (Value.num (objNumSum cells))
  | Dtype.obj, cells =>
    let nn := cells.filter (fun c => !(isNaCell c))
    if nn.isEmpty then Except.ok (Value.num 0)
    else if nn.all cellIsStr then Except.ok (Value.str (objConcat nn))
    else if nn.all cellIsNum then Except.ok (Value.num (objNumSum nn))
    else Except.error PyErr.typeError

/-- Maximum of a nonempty list of rationals, first element as seed. -/
def qListMax (x : ℚ) (xs : List ℚ) : ℚ := xs.foldl max x

/-- Lexicographic code-point comparison of character lists, the order
Python's `<` uses on strings. -/
def charListLt : List Char → List Char → Bool
  | [], [] => false
  | [], _ :: _ => true
  | _ :: _, [] => false
  | a :: as_, b :: bs =>
    if a < b then true else if b < a then false else charListLt as_ bs

/-- Python string `<` by code points. -/
def pyStrLt (s t : String) : Bool := charListLt s.data t.data

/-- Maximum of a nonempty list of strings under Python's lexicographic
code-point order. -/
def sListMax (x : String) (xs : List String) : String :=
  xs.foldl (fun a s => if pyStrLt a s then s else a) x

/-- `column.max()`: NaN/NaT entries are skipped; an empty remainder
yields NaN; an object column of strings takes the lexicographically
greatest string; mixed object contents raise `TypeError`. -/
def seriesMax : Dtype → List Cell → Except PyErr Value
  | Dtype.float64, cells =>
    match cells.filterMap cellNum? with
    | [] => Except.ok Value.nan
    | q :: qs => Except.ok (Value.num (qListMax q qs))
  | Dtype.obj, cells =>
    let nn := cells.filter (fun c => !(isNaCell c))
    if nn.isEmpty then Except.ok Value.nan
    else if nn.all cellIsStr then
      match nn.filterMap cellStr? with
      | [] => Except.ok Value.nan
      | s :: ss => Except.ok (Value.str (sListMax s ss))
    else if nn.all cellIsNum then
      match nn.filterMap cellNum? with
      | [] => Except.ok Value.nan
      | q :: qs => Except.ok (Value.num (qListMax q qs))
    else Except.error PyErr.typeError

/-- `pd.to_datetime(column, errors="coerce").max()`: parse every cell,
drop the NaT results, and take the maximum; all-NaT gives NaT. -/
def toDatetimeCoerceMax (cells : List Cell) : Value :=
  match cells.filterMap toDatetimeCell with
  | [] => Value.nat_
  | q :: qs => Value.date (qListMax q qs)

/-! ### The aggregation engine (`compute_ein_aggregates`) -/

/-- The `sum` branch (main.py lines 44-49): with `currency` cleaning,
strip currency characters through the `.str` accessor, convert with
`astype(float, errors="ignore")` and sum; otherwise convert the raw
column the same way and sum. -/
def aggSum (dt : Dtype) (cells : List Cell) (clean : String) :
    Except PyErr Value :=
  if clean = "currency" then
    match strAccessorReplace dt cells with
    | Except.error e => Except.error e
    | Except.ok stripped =>
      match astypeFloatIgnore Dtype.obj stripped with
      | (dt2, cells2) => seriesSum dt2 cells2
  else
    match astypeFloatIgnore dt cells with
    | (dt2, cells2) => seriesSum dt2 cells2

/-- The `max` branch (main.py lines 54-59): with `currency` cleaning the
same strip-and-convert pipeline followed by `.max()`; otherwise
`pd.to_datetime(column, errors="coerce").max()`. -/
def aggMax (dt : Dtype) (cells : List Cell) (clean : String) :
    Except PyErr Value :=
  if clean = "currency" then
    match strAccessorReplace dt cells with
    | Except.error e => Except.error e
    | Except.ok stripped =>
      match astypeFloatIgnore Dtype.obj stripped with
      | (dt2, cells2) => seriesMax dt2 cells2
  else Except.ok (toDatetimeCoerceMax cells)

/-- One iteration of the field loop of `compute_ein_aggregates`
(main.py lines 31-62): skip non-included fields, skip a `csv_field`
that is missing or not a column of the data, then dispatch on the
aggregation verb; an unrecognized verb falls through every branch and
adds nothing. -/
def stepField (dts : List (String × Dtype)) (einRows : List Row)
    (acc : List (String × Value)) (entry : String × FieldConfig) :
    Except PyErr (List (String × Value)) :=
  if (entry.2.incl.getD false) = false then Except.ok acc else
  match entry.2.csv_field with
  | none => Except.ok acc
  | some csvField =>
    if (dts.lookup csvField).isNone then Except.ok acc else
    let dt := (dts.lookup csvField).getD Dtype.obj
    let cells := subColumn einRows csvField
    if entry.2.aggregation = some "sum" then
      match aggSum dt cells (entry.2.data_clean.getD "none") with
      | Except.error e => Except.error e
      | Except.ok v => Except.ok (acc ++ [(entry.1, v)])
    else if entry.2.aggregation = some "count" then
      Except.ok (acc ++ [(entry.1, Value.num (einRows.length : ℚ))])
    else if entry.2.aggregation = some "max" then
      match aggMax dt cells (entry.2.data_clean.getD "none") with
      | Except.error e => Except.error e
      | Except.ok v => Except.ok (acc ++ [(entry.1, v)])
    else if entry.2.aggregation = some "first" then
      Except.ok (acc ++ [(entry.1, (cells.head?.map cellValue).getD Value.none_)])
    else Except.ok acc

/-- The field loop, threading the result dictionary. -/
def runFields (dts : List (String × Dtype)) (einRows : List Row) :
    List (String × Value) → List (String × FieldConfig) →
    Except PyErr (List (String × Value))
  | acc, [] => Except.ok acc
  | acc, e :: es =>
    match stepField dts einRows acc e with
    | Except.ok acc2 => runFields dts einRows acc2 es
    | Except.error err => Except.error err

/-- `compute_ein_aggregates(df, ein, aggregate_config)` (main.py lines
24-64): select the rows whose `"Tax ID"` equals `ein` (a missing key
column is a `KeyError`), return the empty record when none match, and
otherwise run the field loop over the configuration in order. -/
def computeEinAggregates (df : DataFrame) (ein : Cell)
    (cfg : List (String × FieldConfig)) :
    Except PyErr (List (String × Value)) :=
  if (df.dtypes.lookup "Tax ID").isNone then Except.error PyErr.keyError
  else if (selectKey df "Tax ID" ein).isEmpty then Except.ok []
  else runFields df.dtypes (selectKey df "Tax ID" ein) [] cfg

/-! ### `extract_field_value` over enrichment result objects -/

/-- A Python object shape for the enrichment result: an attribute map,
a scalar, or `None`.  Scalars carry no domain attributes. -/
inductive PyVal where
  | none_ : PyVal
  | pyStr (s : String) : PyVal
  | pyNum (q : ℚ) : PyVal
  | pyBool (b : Bool) : PyVal
  | obj (attrs : List (String × PyVal)) : PyVal

/-- `getattr(o, f)` when `hasattr(o, f)`, else `none`. -/
def getattrOpt : PyVal → String → Option PyVal
  | PyVal.obj attrs, f => attrs.lookup f
  | _, _ => none

/-- `extract_field_value(result, field)` (main.py lines 66-77): probe
the result itself, then `financial_metrics`, `compliance_check`,
`external_validation` and `organization_type`, returning the first
attribute found, and `None` when none of them has it. -/
def extract_field_value (result : PyVal) (field : String) : PyVal :=
  match getattrOpt result field with
  | some v => v
  | none =>
  match (getattrOpt result "financial_metrics").bind
      (fun o => getattrOpt o field) with
  | some v => v
  | none =>
  match (getattrOpt result "compliance_check").bind
      (fun o => getattrOpt o field) with
  | some v => v
  | none =>
  match (getattrOpt result "external_validation").bind
      (fun o => getattrOpt o field) with
  | some v => v
  | none =>
  match (getattrOpt result "organization_type").bind
      (fun o => getattrOpt o field) with
  | some v => v
  | none => PyVal.none_

/-- The ordered list of attribute holders `extract_field_value` probes:
the result itself, then those of the four nested sub-objects that are
present on it. -/
def probeHolders (r : PyVal) : List PyVal :=
  r :: (["financial_metrics", "compliance_check", "external_validation",
         "organization_type"].filterMap (getattrOpt r))

/-! ### `process_batch` row construction and serialization -/

/-- Python `dict.update`: existing keys are overwritten in place, new
keys of the update are appended in its order. -/
def pyDictUpdate (d u : List (String × Value)) : List (String × Value) :=
  d.map (fun kv => (kv.1, (u.lookup kv.1).getD kv.2)) ++
    u.filter (fun kv => (d.lookup kv.1).isNone)

/-- One key's output row in `process_batch` (main.py lines 79-92):
build `row_data` from the extracted enrichment values over `fields`
(`ext` stands for `extract_field_value(result, ·)` on the externally
produced evaluation), merge in the aggregates with `dict.update`, and
serialize through `pd.DataFrame(rows, columns=fields)`, which keeps
exactly the columns named in `fields`, in that order, filling NaN for
a column the dictionary lacks. -/
def processBatchRow (ext : String → Value) (fields : List String)
    (df : DataFrame) (ein : Cell) (cfg : List (String × FieldConfig)) :
    Except PyErr (List (String × Value)) :=
  match computeEinAggregates df ein cfg with
  | Except.error e => Except.error e
  | Except.ok aggs =>
    let rowData := fields.map (fun f => (f, ext f))
    let merged := pyDictUpdate rowData aggs
    Except.ok (fields.map (fun f => (f, (merged.lookup f).getD Value.nan)))

/-! ### The batching loop of `main` -/

/-- Python slice `l[s:e]` for `0 ≤ s ≤ e`. -/
def pySlice (l : List α) (s e : ℕ) : List α := (l.take e).drop s

/-- The key chunks `main` processes (main.py lines 129-147): with
`config.batch > 0`, `total_batches = (n + batch - 1) // batch` slices
`unique_eins[start:end]` with `end = min(start + batch, n)`; otherwise
a single unbatched run over all keys. -/
def batches (keys : List α) (b : ℤ) : List (List α) :=
  if 0 < b then
    let bn := b.toNat
    let total := (keys.length + bn - 1) / bn
    (List.range total).map (fun i =>
      pySlice keys (i * bn) (min (i * bn + bn) keys.length))
  else [keys]

/-! ## Helper lemmas -/

theorem maskFilter_map_self (l : List α) (p : α → Bool) :
    maskFilter l (l.map p) = l.filter p := by
  induction l with
  | nil => rfl
  | cons a as_ ih =>
    simp only [List.map_cons]
    cases h : p a <;> simp [maskFilter, List.filter, h, ih]

/-! ## Claim C6 -/

/-- Claim C6: `df[df[c] == k]` returns exactly the rows whose `c`-cell
equals `k` (for a non-null key, elementwise `==` is exact value
equality), in the original row order and no others, and yields the
empty row list — not an error — when nothing matches. -/
theorem selectKey_partitions (df : DataFrame) (c : String) (k : Cell) :
    selectKey df c k = df.rows.filter (fun r => eqCell (rowCell r c) k)
    ∧ (k ≠ Cell.na → ∀ x : Cell, eqCell x k = true ↔ x = k)
    ∧ ((∀ r ∈ df.rows, eqCell (rowCell r c) k = false) →
        selectKey df c k = []) := by
  have hfilter : selectKey df c k =
      df.rows.filter (fun r => eqCell (rowCell r c) k) := by
    unfold selectKey subColumn
    rw [List.map_map]
    exact maskFilter_map_self _ _
  refine ⟨hfilter, ?_, ?_⟩
  · intro hk x
    cases x <;> cases k <;> simp_all [eqCell]
  · intro h
    rw [hfilter]
    exact List.filter_eq_nil_iff.mpr (fun r hr => by simp [h r hr])

/-- Witness for C6: a key absent from the table selects no rows and
raises no error. -/
theorem selectKey_partitions_witness :
    selectKey ⟨[("Tax ID", Dtype.obj)], [[("Tax ID", Cell.str "a")]]⟩
      "Tax ID" (Cell.str "zz") = [] :=
  (selectKey_partitions ⟨[("Tax ID", Dtype.obj)],
    [[("Tax ID", Cell.str "a")]]⟩ "Tax ID" (Cell.str "zz")).2.2 (by decide)

/-! ## Claim C7 -/

/-- Claim C7: when the selected row-set for a key is empty, the engine
returns a record with every field absent — the empty record — for any
configuration, with no default synthesized and no error raised. -/
theorem computeEinAggregates_emptySelection (df : DataFrame) (ein : Cell)
    (cfg : List (String × FieldConfig))
    (hk : (df.dtypes.lookup "Tax ID").isSome = true)
    (h : selectKey df "Tax ID" ein = []) :
    computeEinAggregates df ein cfg = Except.ok [] := by
  have hk2 : (df.dtypes.lookup "Tax ID").isNone = false := by
    cases hx : df.dtypes.lookup "Tax ID" <;> simp_all
  unfold computeEinAggregates
  simp [hk2, h]

/-- Witness for C7: a concrete key with zero matching rows yields the
empty record. -/
theorem computeEinAggregates_emptySelection_witness :
    computeEinAggregates ⟨[("Tax ID", Dtype.obj), ("Amount", Dtype.obj)],
      [[("Tax ID", Cell.str "a"), ("Amount", Cell.str "$5")]]⟩
      (Cell.str "absent")
      [("total", ⟨some true, some "Amount", some "sum", some "currency"⟩)]
      = Except.ok [] :=
  computeEinAggregates_emptySelection _ _ _ (by decide) (by decide)

/-! ## Claim C4 -/

/-- Counterexample to C4: with verb `count` and a `csv_field` absent
from the columns, the membership check at main.py line 37 runs before
the verb dispatch, so the field is skipped — the record does not hold
the row count 3 the claim requires. -/
theorem count_skipped_when_column_absent :
    computeEinAggregates
      ⟨[("Tax ID", Dtype.obj), ("Amount", Dtype.obj)],
       [[("Tax ID", Cell.str "k"), ("Amount", Cell.str "$1")],
        [("Tax ID", Cell.str "k"), ("Amount", Cell.str "$2")],
        [("Tax ID", Cell.str "k"), ("Amount", Cell.str "$3")]]⟩
      (Cell.str "k")
      [("n", ⟨some true, some "Missing", some "count", none⟩)]
      = Except.ok []
    ∧ ([] : List (String × Value)) ≠ [("n", Value.num (3 : ℚ))] := by
  exact ⟨rfl, by decide⟩

/-- Claim C4 as amended: `count` produces the number of selected rows
regardless of the source column's contents, provided the named
`csv_field` is one of the table's columns; when it is absent the field
is skipped like any other field. -/
theorem count_is_row_count_when_column_present
    (df : DataFrame) (ein : Cell) (name c : String) (fc : FieldConfig)
    (h1 : fc.incl = some true) (h2 : fc.csv_field = some c)
    (h3 : fc.aggregation = some "count")
    (hk : (df.dtypes.lookup "Tax ID").isSome = true)
    (hc : (df.dtypes.lookup c).isSome = true)
    (hne : selectKey df "Tax ID" ein ≠ []) :
    computeEinAggregates df ein [(name, fc)] =
      Except.ok [(name,
        Value.num ((selectKey df "Tax ID" ein).length : ℚ))] := by
  have hk2 : (df.dtypes.lookup "Tax ID").isNone = false := by
    cases hx : df.dtypes.lookup "Tax ID" <;> simp_all
  have hc2 : (df.dtypes.lookup c).isNone = false := by
    cases hx : df.dtypes.lookup c <;> simp_all
  have hne2 : (selectKey df "Tax ID" ein).isEmpty = false := by
    cases hx : selectKey df "Tax ID" ein <;> simp_all
  simp [computeEinAggregates, runFields, stepField, h1, h2, h3, hk2, hc2,
    hne2]

/-- Witness for C4 (amended): three rows with heterogeneous, partly
missing source-column contents still count as 3. -/
theorem count_is_row_count_when_column_present_witness :
    computeEinAggregates
      ⟨[("Tax ID", Dtype.obj), ("Amount", Dtype.obj)],
       [[("Tax ID", Cell.str "k"), ("Amount", Cell.na)],
        [("Tax ID", Cell.str "k"), ("Amount", Cell.str "junk")],
        [("Tax ID", Cell.str "k"), ("Amount", Cell.str "$9")]]⟩
      (Cell.str "k")
      [("n", ⟨some true, some "Amount", some "count", none⟩)]
      = Except.ok [("n", Value.num
          ((selectKey ⟨[("Tax ID", Dtype.obj), ("Amount", Dtype.obj)],
            [[("Tax ID", Cell.str "k"), ("Amount", Cell.na)],
             [("Tax ID", Cell.str "k"), ("Amount", Cell.str "junk")],
             [("Tax ID", Cell.str "k"), ("Amount", Cell.str "$9")]]⟩
            "Tax ID" (Cell.str "k")).length : ℚ))] :=
  count_is_row_count_when_column_present _ _ "n" "Amount" _
    rfl rfl rfl (by decide) (by decide) (by decide)

/-! ## Claim C3 -/

theorem stepField_unrecognized (dts : List (String × Dtype))
    (rows : List Row) (acc : List (String × Value)) (name : String)
    (fc : FieldConfig) (v : String) (hv : fc.aggregation = some v)
    (h1 : v ≠ "sum") (h2 : v ≠ "count") (h3 : v ≠ "max")
    (h4 : v ≠ "first") :
    stepField dts rows acc (name, fc) = Except.ok acc := by
  unfold stepField
  by_cases hI : fc.incl.getD false = false
  · simp [hI]
  · cases hcf : fc.csv_field with
    | none => simp [hI, hcf]
    | some c =>
      by_cases hcol : (dts.lookup c).isNone
      · simp [hI, hcf, hcol]
      · simp [hI, hcf, hcol, hv, h1, h2, h3, h4]

theorem runFields_middle_skip (dts : List (String × Dtype))
    (rows : List Row) (post : List (String × FieldConfig)) (name : String)
    (fc : FieldConfig) (v : String) (hv : fc.aggregation = some v)
    (h1 : v ≠ "sum") (h2 : v ≠ "count") (h3 : v ≠ "max")
    (h4 : v ≠ "first") :
    ∀ (pre : List (String × FieldConfig)) (acc : List (String × Value)),
      runFields dts rows acc (pre ++ (name, fc) :: post) =
        runFields dts rows acc (pre ++ post) := by
  intro pre
  induction pre with
  | nil =>
    intro acc
    simp only [List.nil_append, runFields,
      stepField_unrecognized dts rows acc name fc v hv h1 h2 h3 h4]
  | cons p ps ih =>
    intro acc
    simp only [List.cons_append, runFields]
    cases hstep : stepField dts rows acc p with
    | ok a2 => simpa [hstep] using ih a2
    | error e => simp [hstep]

/-- Counterexample to C3: a configuration whose verb is `"average"` on
a non-empty table raises nothing — the run completes normally (there is
no ConfigurationError anywhere in the program) and the field is simply
absent from the result. -/
theorem unrecognized_verb_raises_no_error :
    computeEinAggregates
      ⟨[("Tax ID", Dtype.obj), ("Amount", Dtype.obj)],
       [[("Tax ID", Cell.str "k"), ("Amount", Cell.str "$5")]]⟩
      (Cell.str "k")
      [("avg", ⟨some true, some "Amount", some "average", some "currency"⟩)]
      = Except.ok [] := by
  rfl

/-- Claim C3 as amended: an unrecognized aggregation verb is never
validated and never raises; the entry falls through every branch of the
dispatch, so deleting it from the configuration does not change the
result of the run, and an unrecognized cleaning rule is treated exactly
like `"none"` in the `sum` and `max` branches. -/
theorem unrecognized_verb_silently_skipped (df : DataFrame) (ein : Cell)
    (pre post : List (String × FieldConfig)) (name : String)
    (fc : FieldConfig) (v : String) (hv : fc.aggregation = some v)
    (h1 : v ≠ "sum") (h2 : v ≠ "count") (h3 : v ≠ "max")
    (h4 : v ≠ "first") :
    (computeEinAggregates df ein (pre ++ (name, fc) :: post) =
      computeEinAggregates df ein (pre ++ post)) ∧
    (∀ (dt : Dtype) (cells : List Cell) (s : String), s ≠ "currency" →
      aggSum dt cells s = aggSum dt cells "none" ∧
      aggMax dt cells s = aggMax dt cells "none") := by
  constructor
  · by_cases hk : (df.dtypes.lookup "Tax ID").isNone
    · simp [computeEinAggregates, hk]
    · by_cases he : (selectKey df "Tax ID" ein).isEmpty
      · simp [computeEinAggregates, hk, he]
      · simp only [computeEinAggregates, hk, he, Bool.false_eq_true,
          if_false]
        exact runFields_middle_skip df.dtypes _ post name fc v hv
          h1 h2 h3 h4 pre []
  · intro dt cells s hs
    constructor <;> simp [aggSum, aggMax, hs]

/-- Witness for C3 (amended): removing an `"average"` entry leaves the
engine's result unchanged on a concrete table. -/
theorem unrecognized_verb_silently_skipped_witness :
    (computeEinAggregates
      ⟨[("Tax ID", Dtype.obj), ("Amount", Dtype.obj)],
       [[("Tax ID", Cell.str "k"), ("Amount", Cell.str "$7")]]⟩
      (Cell.str "k")
      ([("n", ⟨some true, some "Amount", some "count", none⟩)] ++
        ("avg", ⟨some true, some "Amount", some "average", some "currency"⟩)
          :: []) =
     computeEinAggregates
      ⟨[("Tax ID", Dtype.obj), ("Amount", Dtype.obj)],
       [[("Tax ID", Cell.str "k"), ("Amount", Cell.str "$7")]]⟩
      (Cell.str "k")
      ([("n", ⟨some true, some "Amount", some "count", none⟩)] ++ [])) ∧
    (∀ (dt : Dtype) (cells : List Cell) (s : String), s ≠ "currency" →
      aggSum dt cells s = aggSum dt cells "none" ∧
      aggMax dt cells s = aggMax dt cells "none") :=
  unrecognized_verb_silently_skipped _ (Cell.str "k") _ [] "avg" _
    "average" rfl (by decide) (by decide) (by decide) (by decide)

/-! ## Claim C1 -/

/-- Claim C1 fails on the code: for source values `["$1,000.00",
"$250.50", "bad"]` with verb `sum` and cleaning `currency`,
`astype(float, errors="ignore")` converts atomically — the one
uncoercible entry makes the whole column stay strings — and `.sum()`
then concatenates, yielding the string `"1000.00250.50bad"` instead of
the numeric 1250.50 the claim (and spec P4) require. -/
theorem sum_currency_uncoercible_concatenates :
    computeEinAggregates
      ⟨[("Tax ID", Dtype.obj), ("Amount", Dtype.obj)],
       [[("Tax ID", Cell.str "11-1111111"), ("Amount", Cell.str "$1,000.00")],
        [("Tax ID", Cell.str "11-1111111"), ("Amount", Cell.str "$250.50")],
        [("Tax ID", Cell.str "11-1111111"), ("Amount", Cell.str "bad")]]⟩
      (Cell.str "11-1111111")
      [("total", ⟨some true, some "Amount", some "sum", some "currency"⟩)]
      = Except.ok [("total", Value.str "1000.00250.50bad")]
    ∧ Value.str "1000.00250.50bad" ≠ Value.num ((2501 : ℚ) / 2) := by
  exact ⟨rfl, by decide⟩

/-! ## Claim C2 -/

/-- Claim C2 fails on the code: on a column whose dtype is float64
(as `read_csv` produces for an entirely empty or entirely numeric
column), `currency` cleaning calls the `.str` accessor, which raises
`AttributeError` — the exception escapes `compute_ein_aggregates` and
the key's whole record is lost, contradicting the never-raises
guarantee. -/
theorem currency_cleaning_raises_on_float_column :
    computeEinAggregates
      ⟨[("Tax ID", Dtype.obj), ("Amount", Dtype.float64)],
       [[("Tax ID", Cell.str "11-1111111"), ("Amount", Cell.na)]]⟩
      (Cell.str "11-1111111")
      [("total", ⟨some true, some "Amount", some "sum", some "currency"⟩)]
      = Except.error PyErr.attributeError := by
  rfl

/-! ## Claim C5 -/

theorem seed_le_qListMax (x : ℚ) (xs : List ℚ) : x ≤ qListMax x xs := by
  unfold qListMax
  induction xs generalizing x with
  | nil => simp
  | cons y ys ih =>
    rw [List.foldl_cons]
    exact le_trans (le_max_left x y) (ih (max x y))

theorem qListMax_mem (x : ℚ) (xs : List ℚ) : qListMax x xs ∈ x :: xs := by
  unfold qListMax
  induction xs generalizing x with
  | nil => simp
  | cons y ys ih =>
    rw [List.foldl_cons]
    rcases List.mem_cons.mp (ih (max x y)) with h1 | h1
    · rcases max_choice x y with hm | hm
      · rw [h1, hm]; exact List.mem_cons_self x _
      · rw [h1, hm]
        exact List.mem_cons_of_mem _ (List.mem_cons_self y _)
    · exact List.mem_cons_of_mem _ (List.mem_cons_of_mem _ h1)

theorem mem_le_qListMax (x : ℚ) (xs : List ℚ) :
    ∀ y ∈ x :: xs, y ≤ qListMax x xs := by
  unfold qListMax
  induction xs generalizing x with
  | nil => intro y hy; simp at hy; simp [hy]
  | cons z zs ih =>
    intro y hy
    rw [List.foldl_cons]
    rcases List.mem_cons.mp hy with h1 | h1
    · subst h1
      exact le_trans (le_max_left y z) (ih (max y z) _ (List.mem_cons_self _ _))
    · rcases List.mem_cons.mp h1 with h2 | h2
      · subst h2
        exact le_trans (le_max_right x y) (ih (max x y) _ (List.mem_cons_self _ _))
      · exact ih (max x z) y (List.mem_cons_of_mem _ h2)

theorem astypeCells_of_all_parse (ss : List String)
    (h : ∀ s ∈ ss, (pyFloat? s).isSome = true) :
    astypeCells (ss.map Cell.str) =
      some ((ss.filterMap pyFloat?).map Cell.num) := by
  induction ss with
  | nil => rfl
  | cons s tl ih =>
    obtain ⟨q, hq⟩ := Option.isSome_iff_exists.mp (h s (List.mem_cons_self s tl))
    simp [astypeCells, cellToFloat?, hq, List.filterMap_cons,
      ih (fun t ht => h t (List.mem_cons_of_mem _ ht))]

theorem strAccessor_on_strings (ss : List String) :
    strAccessorReplace Dtype.obj (ss.map Cell.str) =
      Except.ok ((ss.map stripCurrency).map Cell.str) := by
  simp [strAccessorReplace, List.map_map]

theorem filterMap_cellNum_map_num (qs : List ℚ) :
    (qs.map Cell.num).filterMap cellNum? = qs := by
  induction qs with
  | nil => rfl
  | cons q tl ih => simp [List.filterMap_cons, cellNum?, ih]

/-- Counterexample to C5: with `currency` cleaning and values
`["$5", "$12", "bad"]`, the uncoercible entry is not excluded — the
atomic `astype` leaves the whole column as strings and `.max()` returns
the lexicographically greatest string `"bad"`, not the numeric maximum
12 of the coercible values. -/
theorem max_currency_uncoercible_lexicographic :
    computeEinAggregates
      ⟨[("Tax ID", Dtype.obj), ("Amount", Dtype.obj)],
       [[("Tax ID", Cell.str "k"), ("Amount", Cell.str "$5")],
        [("Tax ID", Cell.str "k"), ("Amount", Cell.str "$12")],
        [("Tax ID", Cell.str "k"), ("Amount", Cell.str "bad")]]⟩
      (Cell.str "k")
      [("m", ⟨some true, some "Amount", some "max", some "currency"⟩)]
      = Except.ok [("m", Value.str "bad")]
    ∧ Value.str "bad" ≠ Value.num (12 : ℚ) := ⟨rfl, by decide⟩

/-- Claim C5 as amended: with cleaning `currency`, when every stripped
value coerces, `max` is the numeric maximum of the coerced values (12
for `["$5", "$12", "$3"]`); when some value fails to coerce the column
stays strings and the lexicographic maximum is returned instead (see
the counterexample).  With cleaning `none`, `max` is the maximum of the
values parsed as calendar timestamps with unparseable entries excluded,
not zeroed (2024-03-15 for `["2024-01-01", "2024-03-15",
"not-a-date"]`). -/
theorem max_numeric_when_coercible_and_date_otherwise
    (ss : List String) (hne : ss ≠ [])
    (hall : ∀ s ∈ ss, (pyFloat? (stripCurrency s)).isSome = true)
    (dt : Dtype) (cells : List Cell)
    (hdt : cells.filterMap toDatetimeCell ≠ []) :
    (∃ q : ℚ,
      aggMax Dtype.obj (ss.map Cell.str) "currency" =
        Except.ok (Value.num q) ∧
      q ∈ ss.filterMap (fun s => pyFloat? (stripCurrency s)) ∧
      ∀ x ∈ ss.filterMap (fun s => pyFloat? (stripCurrency s)), x ≤ q) ∧
    (∃ q : ℚ,
      aggMax dt cells "none" = Except.ok (Value.date q) ∧
      q ∈ cells.filterMap toDatetimeCell ∧
      ∀ x ∈ cells.filterMap toDatetimeCell, x ≤ q) ∧
    computeEinAggregates
      ⟨[("Tax ID", Dtype.obj), ("Amount", Dtype.obj)],
       [[("Tax ID", Cell.str "k"), ("Amount", Cell.str "$5")],
        [("Tax ID", Cell.str "k"), ("Amount", Cell.str "$12")],
        [("Tax ID", Cell.str "k"), ("Amount", Cell.str "$3")]]⟩
      (Cell.str "k")
      [("m", ⟨some true, some "Amount", some "max", some "currency"⟩)]
      = Except.ok [("m", Value.num 12)] ∧
    computeEinAggregates
      ⟨[("Tax ID", Dtype.obj), ("Date", Dtype.obj)],
       [[("Tax ID", Cell.str "k"), ("Date", Cell.str "2024-01-01")],
        [("Tax ID", Cell.str "k"), ("Date", Cell.str "2024-03-15")],
        [("Tax ID", Cell.str "k"), ("Date", Cell.str "not-a-date")]]⟩
      (Cell.str "k")
      [("m", ⟨some true, some "Date", some "max", none⟩)]
      = Except.ok [("m", Value.date (dateNs 2024 3 15))] := by
  refine ⟨?_, ?_, ?_, ?_⟩
  · have hallts : ∀ t ∈ ss.map stripCurrency, (pyFloat? t).isSome = true := by
      intro t ht
      obtain ⟨s, hs, rfl⟩ := List.mem_map.mp ht
      exact hall s hs
    have hplist : (ss.map stripCurrency).filterMap pyFloat? =
        ss.filterMap (fun s => pyFloat? (stripCurrency s)) := by
      rw [List.filterMap_map]
      rfl
    have hca : astypeCells ((ss.map stripCurrency).map Cell.str) =
        some ((ss.filterMap
          (fun s => pyFloat? (stripCurrency s))).map Cell.num) := by
      rw [astypeCells_of_all_parse _ hallts, hplist]
    have hnonempty : ss.filterMap (fun s => pyFloat? (stripCurrency s)) ≠ [] := by
      cases ss with
      | nil => exact absurd rfl hne
      | cons a tl =>
        obtain ⟨q, hq⟩ := Option.isSome_iff_exists.mp
          (hall a (List.mem_cons_self a tl))
        simp [List.filterMap_cons, hq]
    cases hp : ss.filterMap (fun s => pyFloat? (stripCurrency s)) with
    | nil => exact absurd hp hnonempty
    | cons q qs =>
      refine ⟨qListMax q qs, ?_, ?_, ?_⟩
      · unfold aggMax
        rw [if_pos rfl, strAccessor_on_strings]
        simp only [astypeFloatIgnore, hca, hp, seriesMax,
          filterMap_cellNum_map_num]
      · exact qListMax_mem q qs
      · exact mem_le_qListMax q qs
  · cases hp : cells.filterMap toDatetimeCell with
    | nil => exact absurd hp hdt
    | cons q qs =>
      refine ⟨qListMax q qs, ?_, ?_, ?_⟩
      · simp [aggMax, toDatetimeCoerceMax, hp]
      · exact qListMax_mem q qs
      · exact mem_le_qListMax q qs
  · have h1 : computeEinAggregates
        ⟨[("Tax ID", Dtype.obj), ("Amount", Dtype.obj)],
         [[("Tax ID", Cell.str "k"), ("Amount", Cell.str "$5")],
          [("Tax ID", Cell.str "k"), ("Amount", Cell.str "$12")],
          [("Tax ID", Cell.str "k"), ("Amount", Cell.str "$3")]]⟩
        (Cell.str "k")
        [("m", ⟨some true, some "Amount", some "max", some "currency"⟩)]
        = Except.ok [("m", Value.num (qListMax (qTimesPow10 ((5 : ℕ) : ℚ) 0)
            [qTimesPow10 ((12 : ℕ) : ℚ) 0, qTimesPow10 ((3 : ℕ) : ℚ) 0]))] :=
      rfl
    have hval5 : qTimesPow10 ((5 : ℕ) : ℚ) 0 = 5 := by norm_num [qTimesPow10]
    have hval12 : qTimesPow10 ((12 : ℕ) : ℚ) 0 = 12 := by
      norm_num [qTimesPow10]
    have hval3 : qTimesPow10 ((3 : ℕ) : ℚ) 0 = 3 := by norm_num [qTimesPow10]
    have hmax : qListMax (5 : ℚ) [12, 3] = 12 := by
      show List.foldl max (5 : ℚ) [12, 3] = 12
      rw [List.foldl_cons, List.foldl_cons, List.foldl_nil,
        max_eq_right (show (5 : ℚ) ≤ 12 by norm_num),
        max_eq_left (show (3 : ℚ) ≤ 12 by norm_num)]
    rw [h1, hval5, hval12, hval3, hmax]
  · have h1 : computeEinAggregates
        ⟨[("Tax ID", Dtype.obj), ("Date", Dtype.obj)],
         [[("Tax ID", Cell.str "k"), ("Date", Cell.str "2024-01-01")],
          [("Tax ID", Cell.str "k"), ("Date", Cell.str "2024-03-15")],
          [("Tax ID", Cell.str "k"), ("Date", Cell.str "not-a-date")]]⟩
        (Cell.str "k")
        [("m", ⟨some true, some "Date", some "max", none⟩)]
        = Except.ok [("m", Value.date (qListMax (dateNs 2024 1 1)
            [dateNs 2024 3 15]))] := rfl
    have hle : dateNs 2024 1 1 ≤ dateNs 2024 3 15 := by
      rw [dateNs, dateNs, show daysFromCivil 2024 1 1 = 19723 from by decide,
        show daysFromCivil 2024 3 15 = 19797 from by decide]
      norm_num
    have hmax : qListMax (dateNs 2024 1 1) [dateNs 2024 3 15] =
        dateNs 2024 3 15 := by
      show List.foldl max (dateNs 2024 1 1) [dateNs 2024 3 15] =
        dateNs 2024 3 15
      rw [List.foldl_cons, List.foldl_nil, max_eq_right hle]
    rw [h1, hmax]

/-- Witness for C5 (amended): instantiated at the spec's own inputs. -/
theorem max_numeric_when_coercible_and_date_otherwise_witness :
    (∃ q : ℚ,
      aggMax Dtype.obj (["$5", "$12", "$3"].map Cell.str) "currency" =
        Except.ok (Value.num q) ∧
      q ∈ ["$5", "$12", "$3"].filterMap
        (fun s => pyFloat? (stripCurrency s)) ∧
      ∀ x ∈ ["$5", "$12", "$3"].filterMap
        (fun s => pyFloat? (stripCurrency s)), x ≤ q) ∧
    (∃ q : ℚ,
      aggMax Dtype.obj [Cell.str "2024-01-01", Cell.str "2024-03-15",
        Cell.str "not-a-date"] "none" = Except.ok (Value.date q) ∧
      q ∈ [Cell.str "2024-01-01", Cell.str "2024-03-15",
        Cell.str "not-a-date"].filterMap toDatetimeCell ∧
      ∀ x ∈ [Cell.str "2024-01-01", Cell.str "2024-03-15",
        Cell.str "not-a-date"].filterMap toDatetimeCell, x ≤ q) ∧
    computeEinAggregates
      ⟨[("Tax ID", Dtype.obj), ("Amount", Dtype.obj)],
       [[("Tax ID", Cell.str "k"), ("Amount", Cell.str "$5")],
        [("Tax ID", Cell.str "k"), ("Amount", Cell.str "$12")],
        [("Tax ID", Cell.str "k"), ("Amount", Cell.str "$3")]]⟩
      (Cell.str "k")
      [("m", ⟨some true, some "Amount", some "max", some "currency"⟩)]
      = Except.ok [("m", Value.num 12)] ∧
    computeEinAggregates
      ⟨[("Tax ID", Dtype.obj), ("Date", Dtype.obj)],
       [[("Tax ID", Cell.str "k"), ("Date", Cell.str "2024-01-01")],
        [("Tax ID", Cell.str "k"), ("Date", Cell.str "2024-03-15")],
        [("Tax ID", Cell.str "k"), ("Date", Cell.str "not-a-date")]]⟩
      (Cell.str "k")
      [("m", ⟨some true, some "Date", some "max", none⟩)]
      = Except.ok [("m", Value.date (dateNs 2024 3 15))] :=
  max_numeric_when_coercible_and_date_otherwise
    ["$5", "$12", "$3"] (by decide) (by decide)
    Dtype.obj [Cell.str "2024-01-01", Cell.str "2024-03-15",
      Cell.str "not-a-date"] (by decide)

/-! ## Claim C8 -/

theorem pySlice_eq (l : List α) (s bn : ℕ) :
    pySlice l s (min (s + bn) l.length) = (l.drop s).take bn := by
  unfold pySlice
  rw [List.drop_take]
  apply List.take_eq_take.mpr
  simp [List.length_drop]
  omega

theorem chunks_flatten (bn : ℕ) (_hb : 0 < bn) :
    ∀ (t : ℕ) (l : List α), l.length ≤ t * bn →
    ((List.range t).map (fun i => (l.drop (i * bn)).take bn)).flatten = l := by
  intro t
  induction t with
  | zero =>
    intro l h
    simp at h
    simp [h]
  | succ t ih =>
    intro l h
    rw [List.range_succ_eq_map, List.map_cons, List.map_map,
      List.flatten_cons]
    have hcomp : ((fun i => (l.drop (i * bn)).take bn) ∘ Nat.succ) =
        (fun i => ((l.drop bn).drop (i * bn)).take bn) := by
      funext i
      simp only [Function.comp]
      rw [List.drop_drop]
      congr 2
      simp [Nat.succ_eq_add_one]
      ring
    have hexp : (t + 1) * bn = t * bn + bn := by ring
    rw [hcomp, Nat.zero_mul, List.drop_zero,
      ih (l.drop bn) (by simp [List.length_drop]; omega)]
    exact List.take_append_drop bn l

/-- Claim C8: with `config.batch > 0` the loop of `main` slices the key
sequence into contiguous chunks whose concatenation is exactly the
original sequence (no key reordered, duplicated or dropped), every
chunk has at most `batch` keys and every non-final chunk exactly
`batch`; with `batch ≤ 0` the whole key sequence is processed as one
unbatched run, not as zero keys. -/
theorem batches_partition_keys (keys : List String) (b : ℤ) :
    (batches keys b).flatten = keys ∧
    (b ≤ 0 → batches keys b = [keys]) ∧
    (0 < b → (∀ c ∈ batches keys b, c.length ≤ b.toNat) ∧
      (∀ i : ℕ, i + 1 < (batches keys b).length →
        ((batches keys b).getD i []).length = b.toNat)) := by
  by_cases hb : 0 < b
  · have hbn : 0 < b.toNat := by omega
    have hslice : ∀ i : ℕ, pySlice keys (i * b.toNat)
        (min (i * b.toNat + b.toNat) keys.length) =
        (keys.drop (i * b.toNat)).take b.toNat := fun i => pySlice_eq _ _ _
    have hlen : keys.length ≤
        ((keys.length + b.toNat - 1) / b.toNat) * b.toNat := by
      have h1 := Nat.div_add_mod (keys.length + b.toNat - 1) b.toNat
      have h2 := Nat.mod_lt (keys.length + b.toNat - 1) hbn
      set t := (keys.length + b.toNat - 1) / b.toNat with ht
      set r := (keys.length + b.toNat - 1) % b.toNat with hr
      have h3 : b.toNat * t = keys.length + b.toNat - 1 - r := by omega
      have h4 : b.toNat * t = t * b.toNat := Nat.mul_comm _ _
      omega
    refine ⟨?_, ?_, ?_⟩
    · simp only [batches, if_pos hb]
      rw [List.map_congr_left (fun i _ => hslice i)]
      exact chunks_flatten b.toNat hbn _ keys hlen
    · intro hle; omega
    · intro _
      constructor
      · intro c hc
        simp only [batches, if_pos hb] at hc
        obtain ⟨i, _, rfl⟩ := List.mem_map.mp hc
        rw [hslice i]
        simp [List.length_take]
      · intro i hi
        simp only [batches, if_pos hb] at hi ⊢
        rw [List.length_map, List.length_range] at hi
        have hget : ((List.range ((keys.length + b.toNat - 1) / b.toNat)).map
            (fun i => pySlice keys (i * b.toNat)
              (min (i * b.toNat + b.toNat) keys.length))).getD i [] =
            pySlice keys (i * b.toNat)
              (min (i * b.toNat + b.toNat) keys.length) := by
          rw [List.getD_eq_getElem?_getD, List.getElem?_map,
            List.getElem?_range (by omega)]
          rfl
        rw [hget, hslice i, List.length_take, List.length_drop]
        have hmul : (i + 2) * b.toNat ≤
            ((keys.length + b.toNat - 1) / b.toNat) * b.toNat :=
          Nat.mul_le_mul_right _ (by omega)
        have hdivle : ((keys.length + b.toNat - 1) / b.toNat) * b.toNat ≤
            keys.length + b.toNat - 1 := Nat.div_mul_le_self _ _
        have hx : i * b.toNat + 2 * b.toNat ≤ keys.length + b.toNat - 1 := by
          have : (i + 2) * b.toNat = i * b.toNat + 2 * b.toNat := by ring
          omega
        omega
  · refine ⟨?_, ?_, ?_⟩
    · simp [batches, hb]
    · intro _; simp [batches, hb]
    · intro h0; exact absurd h0 hb

/-- Witness for C8: five keys in batches of 2 concatenate back to the
original sequence, and batch size 0 gives a single unbatched run. -/
theorem batches_partition_keys_witness :
    (batches ["a", "b", "c", "d", "e"] 2).flatten =
      ["a", "b", "c", "d", "e"] ∧
    batches ["a", "b", "c", "d", "e"] 0 = [["a", "b", "c", "d", "e"]] ∧
    (∀ c ∈ batches ["a", "b", "c", "d", "e"] 2, c.length ≤ (2 : ℤ).toNat) :=
  ⟨(batches_partition_keys ["a", "b", "c", "d", "e"] 2).1,
   (batches_partition_keys ["a", "b", "c", "d", "e"] 0).2.1 (by decide),
   ((batches_partition_keys ["a", "b", "c", "d", "e"] 2).2.2 (by decide)).1⟩

/-! ## Claim C9 -/

theorem lookup_map_pair (g : String → Value) :
    ∀ (l : List String) (f : String), f ∈ l →
    (l.map (fun x => (x, g x))).lookup f = some (g f) := by
  intro l
  induction l with
  | nil => intro f hf; simp at hf
  | cons x xs ih =>
    intro f hf
    by_cases hfx : f = x
    · subst hfx
      simp [List.lookup]
    · rcases List.mem_cons.mp hf with h | h
      · exact absurd h hfx
      · simp [List.lookup, beq_eq_false_iff_ne.mpr hfx, ih f h]

theorem lookup_append_of_isSome (l1 l2 : List (String × Value)) (f : String)
    (h : (l1.lookup f).isSome = true) :
    (l1 ++ l2).lookup f = l1.lookup f := by
  induction l1 with
  | nil => simp at h
  | cons kv tl ih =>
    cases hkv : (f == kv.1) with
    | true =>
      simp [List.lookup, hkv]
    | false =>
      simp only [List.lookup, hkv] at h
      simp [List.lookup, hkv, ih h]

theorem pyDictUpdate_lookup (ext : String → Value) (fields : List String)
    (u : List (String × Value)) (f : String) (hf : f ∈ fields) :
    (pyDictUpdate (fields.map (fun x => (x, ext x))) u).lookup f =
      some ((u.lookup f).getD (ext f)) := by
  unfold pyDictUpdate
  have hmap : (fields.map (fun x => (x, ext x))).map
      (fun kv => (kv.1, (u.lookup kv.1).getD kv.2)) =
      fields.map (fun x => (x, (u.lookup x).getD (ext x))) := by
    rw [List.map_map]
    rfl
  rw [hmap]
  rw [lookup_append_of_isSome _ _ f
    (by rw [lookup_map_pair _ fields f hf]; rfl)]
  exact lookup_map_pair _ fields f hf

/-- Counterexample to C9: the engine computes `total_donated` for the
key, but `pd.DataFrame(rows, columns=fields)` keeps only the columns
named in `fields` — with `fields = ["ein"]` the aggregated field is
dropped from the serialized row, and the column order is `fields`, not
enrichment fields followed by the aggregation fields. -/
theorem aggregated_field_dropped_from_output :
    computeEinAggregates
      ⟨[("Tax ID", Dtype.obj), ("Amount", Dtype.obj)],
       [[("Tax ID", Cell.str "11"), ("Amount", Cell.str "$100.00")]]⟩
      (Cell.str "11")
      [("total_donated", ⟨some true, some "Amount", some "sum", some "currency"⟩)]
      = Except.ok [("total_donated", Value.num 100)] ∧
    processBatchRow (fun _ => Value.none_) ["ein"]
      ⟨[("Tax ID", Dtype.obj), ("Amount", Dtype.obj)],
       [[("Tax ID", Cell.str "11"), ("Amount", Cell.str "$100.00")]]⟩
      (Cell.str "11")
      [("total_donated", ⟨some true, some "Amount", some "sum", some "currency"⟩)]
      = Except.ok [("ein", Value.none_)] := by
  constructor
  · have h1 : computeEinAggregates
        ⟨[("Tax ID", Dtype.obj), ("Amount", Dtype.obj)],
         [[("Tax ID", Cell.str "11"), ("Amount", Cell.str "$100.00")]]⟩
        (Cell.str "11")
        [("total_donated",
          ⟨some true, some "Amount", some "sum", some "currency"⟩)]
        = Except.ok [("total_donated", Value.num ((0 : ℚ) +
            qTimesPow10 (((100 : ℕ) : ℚ) +
              ((0 : ℕ) : ℚ) / (10 : ℚ) ^ (2 : ℕ)) 0))] := rfl
    have h2 : (0 : ℚ) + qTimesPow10 (((100 : ℕ) : ℚ) +
        ((0 : ℕ) : ℚ) / (10 : ℚ) ^ (2 : ℕ)) 0 = 100 := by
      norm_num [qTimesPow10]
    rw [h1, h2]
  · rfl

/-- Claim C9 as amended: the emitted row for a processed key is the
merge of the extracted enrichment values with the aggregates
(aggregates overwrite on a name collision), restricted to and ordered
by the configured `fields` list: each output cell holds the aggregated
value when the engine computed that field name and the extracted value
otherwise, and an aggregated field whose name is not in `fields` is
dropped by the `pd.DataFrame(rows, columns=fields)` serialization. -/
theorem processBatchRow_projects_fields (ext : String → Value)
    (fields : List String) (df : DataFrame) (ein : Cell)
    (cfg : List (String × FieldConfig)) (aggs : List (String × Value))
    (h : computeEinAggregates df ein cfg = Except.ok aggs) :
    processBatchRow ext fields df ein cfg =
      Except.ok (fields.map (fun f =>
        (f, (aggs.lookup f).getD (ext f)))) := by
  unfold processBatchRow
  rw [h]
  show Except.ok (fields.map (fun f => (f,
      ((pyDictUpdate (fields.map (fun x => (x, ext x))) aggs).lookup f).getD
        Value.nan))) =
    Except.ok (fields.map (fun f => (f, (aggs.lookup f).getD (ext f))))
  congr 1
  apply List.map_congr_left
  intro f hf
  rw [pyDictUpdate_lookup ext fields aggs f hf]
  rfl

/-- Witness for C9 (amended): a count aggregate named in `fields`
overwrites the extracted value in the serialized row. -/
theorem processBatchRow_projects_fields_witness :
    processBatchRow (fun _ => Value.none_) ["ein", "n_donations"]
      ⟨[("Tax ID", Dtype.obj), ("Amount", Dtype.obj)],
       [[("Tax ID", Cell.str "11"), ("Amount", Cell.str "$5")]]⟩
      (Cell.str "11")
      [("n_donations", ⟨some true, some "Amount", some "count", none⟩)]
      = Except.ok (["ein", "n_donations"].map (fun f =>
          (f, ([("n_donations", Value.num ((1 : ℕ) : ℚ))].lookup f).getD
            Value.none_))) :=
  processBatchRow_projects_fields _ _ _ _ _ _ rfl

/-! ## Claim C10 -/

/-- The probe chain over a list of sub-object attribute names: the
first sub-object present on `r` that has attribute `f` supplies the
value, else `None`. -/
def chainLookup (r : PyVal) (f : String) : List String → PyVal
  | [] => PyVal.none_
  | n :: ns =>
    match (getattrOpt r n).bind (fun o => getattrOpt o f) with
    | some v => v
    | none => chainLookup r f ns

theorem chainLookup_spec (r : PyVal) (f : String) :
    ∀ ns : List String, chainLookup r f ns =
      ((ns.filterMap (getattrOpt r)).filterMap
        (fun o => getattrOpt o f)).head?.getD PyVal.none_ := by
  intro ns
  induction ns with
  | nil => rfl
  | cons n tl ih =>
    cases hn : getattrOpt r n with
    | none => simp [chainLookup, hn, List.filterMap_cons, ih]
    | some o =>
      cases ho : getattrOpt o f with
      | none => simp [chainLookup, hn, ho, List.filterMap_cons, ih]
      | some v => simp [chainLookup, hn, ho, List.filterMap_cons]

/-- Claim C10: `extract_field_value` returns the attribute named
`field` from the first holder in the fixed probe order — the result
itself, then its `financial_metrics`, `compliance_check`,
`external_validation` and `organization_type` sub-objects that are
present — and returns `None`, never raising, when none of them has it;
a top-level attribute always shadows a same-named nested one. -/
theorem extract_field_value_probes_in_order (r : PyVal) (f : String) :
    (extract_field_value r f =
      (((probeHolders r).filterMap
        (fun o => getattrOpt o f)).head?).getD PyVal.none_) ∧
    (∀ v, getattrOpt r f = some v → extract_field_value r f = v) := by
  have hx : extract_field_value r f =
      match getattrOpt r f with
      | some v => v
      | none => chainLookup r f ["financial_metrics", "compliance_check",
          "external_validation", "organization_type"] := by
    cases h0 : getattrOpt r f <;>
      simp only [extract_field_value, chainLookup, h0]
  constructor
  · rw [hx]
    unfold probeHolders
    cases h0 : getattrOpt r f with
    | some v => simp [h0, List.filterMap_cons]
    | none =>
      simp only [List.filterMap_cons, h0]
      exact chainLookup_spec r f _
  · intro v hv
    rw [hx, hv]

/-- Witness for C10: a top-level `score` attribute shadows the
same-named attribute of the nested `financial_metrics` object. -/
theorem extract_field_value_probes_in_order_witness :
    extract_field_value (PyVal.obj [("score", PyVal.pyNum 1),
      ("financial_metrics", PyVal.obj [("score", PyVal.pyNum 2)])]) "score"
      = PyVal.pyNum 1 :=
  (extract_field_value_probes_in_order (PyVal.obj [("score", PyVal.pyNum 1),
    ("financial_metrics", PyVal.obj [("score", PyVal.pyNum 2)])])
    "score").2 (PyVal.pyNum 1) rfl
